import Mathlib

/-!
Verification of the LogHound log classification and aggregation engine.

The Python sources (`eft_codes.py`, `parser.py`, `scanner.py`, `reporter.py`)
are embedded shallowly: Python dictionaries become association lists with
Python's update semantics, regular-expression scans become explicit
recursive scans over character lists, `Counter` incrementing becomes an
explicit insertion-ordered association-list update, console printing
becomes a list of output events, and fallible file-system operations are
abstracted as `Except` values injected by the caller.
-/

/-! ## Code registry (`eft_codes.py`) -/

/-- FTP/FTPS codes (`EFT_CODES` in `eft_codes.py`), in source order. -/
def EFT_CODES : List (Int × String) :=
  [ (110, "Restart marker reply"),
    (120, "Service ready in nn minutes"),
    (125, "Data connection already open; transfer starting"),
    (150, "File status okay; about to open data connection"),
    (200, "Command okay"),
    (202, "Command not implemented, superfluous at this site"),
    (211, "System status, or system help reply"),
    (212, "Directory status"),
    (213, "File status"),
    (214, "Help message"),
    (215, "NAME system type"),
    (220, "Service ready for new user"),
    (221, "Service closing control connection"),
    (225, "Data connection open; no transfer in progress"),
    (226, "Closing data connection (file transfer successful)"),
    (227, "Entering Passive Mode"),
    (230, "User logged in, proceed"),
    (250, "Requested file action okay, completed"),
    (257, "PATHNAME created"),
    (331, "User name okay, need password"),
    (332, "Need account for login"),
    (350, "Requested file action pending further information"),
    (421, "Service not available, closing control connection"),
    (425, "Cannot open data connection"),
    (426, "Connection closed; transfer aborted"),
    (450, "Requested file action not taken (file busy)"),
    (451, "Requested action aborted: local error in processing"),
    (452, "Requested action not taken (insufficient storage)"),
    (500, "Syntax error, command unrecognized"),
    (501, "Syntax error in parameters or arguments"),
    (502, "Command not implemented"),
    (503, "Bad sequence of commands"),
    (504, "Command not implemented for that parameter"),
    (530, "Not logged in (invalid credentials)"),
    (532, "Need account for storing files"),
    (550, "Requested action not taken (file unavailable/not found/no access)"),
    (552, "Requested file action aborted (storage allocation exceeded)"),
    (553, "Requested action not taken (file name not allowed)") ]

/-- HTTP/HTTPS codes (`HTTP_CODES` in `eft_codes.py`). -/
def HTTP_CODES : List (Int × String) :=
  [ (400, "Bad Request (malformed header or query)"),
    (401, "Unauthorized (login failed)"),
    (403, "Forbidden (permission denied)"),
    (404, "Not Found (file/folder does not exist)"),
    (406, "Not Acceptable (bad header value)"),
    (408, "Request Time-out (socket timeout)"),
    (411, "Length Required (invalid file length)"),
    (412, "Precondition Failed (session timeout)"),
    (413, "Request Entity Too Large (quota exceeded)"),
    (414, "Request-URI Too Large (URI exceeds max length)"),
    (500, "Internal Server Error (disk full or abort)"),
    (501, "Not Implemented (unimplemented request method)") ]

/-- SFTP codes (`SFTP_CODES` in `eft_codes.py`). -/
def SFTP_CODES : List (Int × String) :=
  [ (-1, "Undefined or unknown error"),
    (0, "Operation completed successfully"),
    (1, "End of file reached"),
    (2, "File does not exist"),
    (3, "Insufficient privileges"),
    (4, "Operation failed for other reason"),
    (5, "Badly formatted message (protocol error)"),
    (6, "Connection not established (timeout)"),
    (7, "Connection to server lost"),
    (8, "Timeout occurred") ]

/-- Winsock (network socket) codes (`WINSOCK_CODES` in `eft_codes.py`). -/
def WINSOCK_CODES : List (Int × String) :=
  [ (10054, "WSAECONNRESET - Connection reset by peer"),
    (10060, "WSAETIMEDOUT - Connection timed out"),
    (10061, "WSAECONNREFUSED - Connection refused"),
    (10066, "WSAENOTEMPTY - Directory not empty"),
    (10068, "WSAEUSERS - User quota exceeded"),
    (11001, "WSAHOST_NOT_FOUND - Host not found") ]

/-- Python dict assignment `d[k] = v`: replace the value of an existing key
in place (keeping its position), otherwise append the new binding. -/
def dictUpdate : List (Int × String) → Int → String → List (Int × String)
  | [], k, v => [(k, v)]
  | (k0, v0) :: rest, k, v =>
      if k0 = k then (k0, v) :: rest else (k0, v0) :: dictUpdate rest k v

/-- Python dict merge `{**d, **e}`: fold the bindings of `e` into `d`,
so keys of `e` override keys of `d`. -/
def dictMerge (d e : List (Int × String)) : List (Int × String) :=
  e.foldl (fun acc p => dictUpdate acc p.1 p.2) d

/-- Python dict lookup `d.get(k)` (keys are unique, so the first binding
is the binding). -/
def dictGet : List (Int × String) → Int → Option String
  | [], _ => none
  | (k0, v0) :: rest, k => if k0 = k then some v0 else dictGet rest k

/-- The merged registry `ALL_CODES = {**EFT_CODES, **HTTP_CODES, **SFTP_CODES, **WINSOCK_CODES}`. -/
def ALL_CODES : List (Int × String) :=
  dictMerge (dictMerge (dictMerge EFT_CODES HTTP_CODES) SFTP_CODES) WINSOCK_CODES

/-- `ALL_CODES.get(code, "Unknown")` as used by the reporter. -/
def describe (c : Int) : String :=
  (dictGet ALL_CODES c).getD "Unknown"

/-! ## Line parser (`parser.py`) -/

/-- Python `';' in linea`. -/
def pyContainsChar (cs : List Char) (c : Char) : Bool :=
  cs.any (fun x => x == c)

/-- Helper for `pySplit`. -/
def pySplitAux (delim : Char) : List Char → List Char → List (List Char)
  | acc, [] => [acc.reverse]
  | acc, c :: rest =>
      if c == delim then acc.reverse :: pySplitAux delim [] rest
      else pySplitAux delim (c :: acc) rest

/-- Python `linea.split(delim)` for a one-character delimiter. -/
def pySplit (delim : Char) (cs : List Char) : List (List Char) :=
  pySplitAux delim [] cs

/-- Characters removed by Python `str.strip()` (ASCII whitespace). -/
def pyIsSpace (c : Char) : Bool :=
  c == ' ' || c == '\t' || c == '\n' || c == '\r' || c == '\x0b' || c == '\x0c'

/-- Python `str.strip()` on a character list. -/
def pyStripL (cs : List Char) : List Char :=
  ((cs.dropWhile pyIsSpace).reverse.dropWhile pyIsSpace).reverse

/-- Python `line.strip()`. -/
def pyStrip (s : String) : String :=
  String.mk (pyStripL s.data)

/-- Digit-sequence parser for Python `int()`: accepts decimal digits with
single underscores between digits; `prevDigit` records whether the previous
character was a digit (an underscore is only legal right after a digit, and
the string must end with a digit). -/
def pyDigitsAux : Bool → Nat → List Char → Option Nat
  | prevDigit, acc, [] => if prevDigit then some acc else none
  | prevDigit, acc, c :: rest =>
      if c.isDigit then pyDigitsAux true (10 * acc + (c.toNat - 48)) rest
      else if c == '_' && prevDigit then pyDigitsAux false acc rest
      else none

/-- Python `int(s)` on an already-stripped character list: optional sign,
then a nonempty digit sequence (underscore grouping allowed); `none` models
the `ValueError` caught by the source. -/
def pyIntOfChars (cs : List Char) : Option Int :=
  match cs with
  | '+' :: rest => (pyDigitsAux false 0 rest).map Int.ofNat
  | '-' :: rest => (pyDigitsAux false 0 rest).map (fun n => -(n : Int))
  | _ => (pyDigitsAux false 0 cs).map Int.ofNat

/-- Python regex `\w` (ASCII fragment): letters, digits, underscore. -/
def isWordChar (c : Char) : Bool :=
  c.isAlphanum || c == '_'

/-- A character that may legally sit next to a code token: the pattern
`(?<![:\d.\-])\b(\d{3,5})\b(?![:\d.\-])` rejects word characters (via `\b`)
and `:`, `.`, `-` (via the lookarounds) on either side. -/
def sepOk (c : Char) : Bool :=
  !(isWordChar c || c == ':' || c == '.' || c == '-')

/-- Boundary test for the character before a candidate token (start of
string allowed). -/
def sepOkOpt : Option Char → Bool
  | none => true
  | some c => sepOk c

/-- Boundary test for the character after a candidate token (end of string
allowed). -/
def listHeadSepOk : List Char → Bool
  | [] => true
  | c :: _ => sepOk c

/-- All matches of `code_pattern_ex = (?<![:\d.\-])\b(\d{3,5})\b(?![:\d.\-])`,
in order (`findall`): a maximal digit run of length 3 to 5 whose neighbours
on both sides (when present) are neither word characters nor `:`, `.`, `-`.
Runs of six or more digits never match (every length 3 to 5 slice leaves an
adjacent digit). Continuing the scan one character after a match start is
the same as continuing after the whole match, because every position inside
a digit run has a digit on its left and so fails the lookbehind. -/
def reMatches (prev : Option Char) : List Char → List String
  | [] => []
  | c :: rest =>
      if c.isDigit && sepOkOpt prev then
        let run := c :: rest.takeWhile Char.isDigit
        if 3 ≤ run.length && run.length ≤ 5 && listHeadSepOk (rest.dropWhile Char.isDigit) then
          String.mk run :: reMatches (some c) rest
        else reMatches (some c) rest
      else reMatches (some c) rest

/-- Decimal value of an all-digit match (`int(match)`). -/
def digitsToNat (cs : List Char) : Nat :=
  cs.foldl (fun a c => 10 * a + (c.toNat - 48)) 0

/-- The `for match in matches: if int(match) < 100000: return int(match)`
loop of `extract_code`. -/
def pickCode : List String → Option Int
  | [] => none
  | m :: ms =>
      if (Int.ofNat (digitsToNat m.data)) < 100000 then
        some (Int.ofNat (digitsToNat m.data))
      else pickCode ms

/-- The EX/TED6 token-scan strategy of `extract_code`. -/
def tokenScanCode (cs : List Char) : Option Int :=
  pickCode (reMatches none cs)

/-- `LogParser.extract_code`: the delimited (CL/CSV) strategy first — field
index 8 of a semicolon-split line with at least nine fields, accepted when
it parses as 0 (success: no code), 200 to 599, or at least 10000 — then the
token-scan strategy on the whole line when the delimited strategy yields no
decision. -/
def extract_code (linea : String) : Option Int :=
  let cs := linea.data
  let fallback := tokenScanCode cs
  if pyContainsChar cs ';' then
    let fields := pySplit ';' cs
    if 9 ≤ fields.length then
      match pyIntOfChars (pyStripL (fields.getD 8 [])) with
      | some code =>
          if code = 0 then none
          else if ((200 : Int) ≤ code ∧ code ≤ 599) ∨ 10000 ≤ code then some code
          else fallback
      | none => fallback
    else fallback
  else fallback

/-- One-to-three-digit octet for the IP pattern `\d{1,3}`: the maximal digit
run here must have length 1 to 3 (a longer run cannot match, since the
pattern then demands a dot or a word boundary where a digit stands). -/
def octetTake (cs : List Char) : Option (List Char × List Char) :=
  let run := cs.takeWhile Char.isDigit
  if 1 ≤ run.length ∧ run.length ≤ 3 then some (run, cs.dropWhile Char.isDigit) else none

/-- Non-word character (or end of string) after a match, for a closing `\b`. -/
def listHeadNonWord : List Char → Bool
  | [] => true
  | c :: _ => !isWordChar c

/-- Attempt of `ip_pattern = \b(\d{1,3}(?:\.\d{1,3}){3})\b` at one position:
four dot-separated octets followed by a word boundary. -/
def ipAt (cs : List Char) : Option (List Char) :=
  match octetTake cs with
  | none => none
  | some (d1, r1) =>
    match r1 with
    | '.' :: r1' =>
      match octetTake r1' with
      | none => none
      | some (d2, r2) =>
        match r2 with
        | '.' :: r2' =>
          match octetTake r2' with
          | none => none
          | some (d3, r3) =>
            match r3 with
            | '.' :: r3' =>
              match octetTake r3' with
              | none => none
              | some (d4, r4) =>
                if listHeadNonWord r4 then
                  some (d1 ++ '.' :: (d2 ++ '.' :: (d3 ++ '.' :: d4)))
                else none
            | _ => none
        | _ => none
    | _ => none

/-- Word-boundary test for the character before a match start whose first
character is a digit: start of string or a non-word character. -/
def prevNonWord : Option Char → Bool
  | none => true
  | some c => !isWordChar c

/-- Leftmost match of the IP pattern (`ip_pattern.search`). -/
def searchIp (prev : Option Char) : List Char → Option (List Char)
  | [] => none
  | c :: rest =>
      if prevNonWord prev then
        match ipAt (c :: rest) with
        | some m => some m
        | none => searchIp (some c) rest
      else searchIp (some c) rest

/-- `LogParser.extract_ip`: first IPv4-shaped dotted quad in the line. -/
def extract_ip (linea : String) : Option String :=
  (searchIp none linea.data).map String.mk

/-- Characters of the path pattern's class: word characters, hyphen,
slash, dot, plus. -/
def isPathChar (c : Char) : Bool :=
  isWordChar c || c == '-' || c == '/' || c == '.' || c == '+'

/-- Attempt of `path_pattern` (a slash, then one or more class characters,
matched greedily) at one position. -/
def pathAt : List Char → Option (List Char)
  | '/' :: c :: rest =>
      if isPathChar c then some ('/' :: (c :: rest).takeWhile isPathChar) else none
  | _ => none

/-- Leftmost match of the path pattern (`path_pattern.search`). -/
def searchPath : List Char → Option (List Char)
  | [] => none
  | c :: rest =>
      match pathAt (c :: rest) with
      | some m => some m
      | none => searchPath rest

/-- `LogParser.extract_path`: first path-shaped substring in the line. -/
def extract_path (linea : String) : Option String :=
  (searchPath linea.data).map String.mk

/-- Shape test for `date_pattern = \b(\d{4}-\d{2}-\d{2} \d{2}:\d{2}:\d{2})`
at one position (fixed 19-character template). -/
def dateShapeOk (cs : List Char) : Bool :=
  match cs with
  | y1 :: y2 :: y3 :: y4 :: s1 :: a1 :: a2 :: s2 :: b1 :: b2 :: sp :: h1 :: h2 :: c1 :: m1 :: m2 :: c2 :: x1 :: x2 :: _ =>
      y1.isDigit && y2.isDigit && y3.isDigit && y4.isDigit && s1 == '-' &&
      a1.isDigit && a2.isDigit && s2 == '-' && b1.isDigit && b2.isDigit &&
      sp == ' ' && h1.isDigit && h2.isDigit && c1 == ':' && m1.isDigit &&
      m2.isDigit && c2 == ':' && x1.isDigit && x2.isDigit
  | _ => false

/-- Leftmost match of the date pattern (`date_pattern.search`); the opening
`\b` needs a non-word character (or start of string) before the first digit. -/
def findDate (prev : Option Char) : List Char → Option String
  | [] => none
  | c :: rest =>
      if prevNonWord prev && dateShapeOk (c :: rest) then
        some (String.mk ((c :: rest).take 19))
      else findDate (some c) rest

/-- `LogParser.format_date`: the matched timestamp text, or the question-mark
placeholder when no match (a matching but uninterpretable date is returned
verbatim by the source's exception handler, and `strftime` after a successful
`strptime` reproduces the matched zero-padded text, so the result is the
matched text in both cases). -/
def format_date (linea : String) : String :=
  (findDate none linea.data).getD "????-??-?? ??:??:??"

/-- Python `str.lower()` (ASCII fragment). -/
def toLowerL (cs : List Char) : List Char :=
  cs.map Char.toLower

/-- `needle` occurs at the head of `hay`. -/
def leadsWith : List Char → List Char → Bool
  | [], _ => true
  | _ :: _, [] => false
  | a :: as, b :: bs => a == b && leadsWith as bs

/-- Python substring containment `needle in hay`. -/
def hasSub (need : List Char) : List Char → Bool
  | [] => need.isEmpty
  | c :: rest => leadsWith need (c :: rest) || hasSub need rest

/-- `LogParser.search_string`: case-insensitive substring containment, with
an empty (falsy) search string never matching. -/
def search_string (linea pat : String) : Bool :=
  if pat = "" then false
  else hasSub (toLowerL pat.data) (toLowerL linea.data)

/-! ## Directory scanner (`scanner.py`) -/

/-- One record of `search_results`: `(full_path, idx, linea, matched_pattern, codigo)`. -/
structure SearchRec where
  path : String
  idx : Nat
  linea : String
  term : String
  code : Option Int
deriving DecidableEq, Repr

/-- `Counter` read `d[k]` (0 for an absent key; keys are unique, so the
first binding is the binding). -/
def cGet [BEq α] : List (α × Nat) → α → Nat
  | [], _ => 0
  | p :: rest, k => if p.1 == k then p.2 else cGet rest k

/-- `Counter` increment `d[k] += 1`: bump an existing key in place, or
append a fresh key with count 1 (Python dicts keep insertion order). -/
def cInc [BEq α] (d : List (α × Nat)) (k : α) : List (α × Nat) :=
  if d.any (fun p => p.1 == k) then
    d.map (fun p => if p.1 == k then (p.1, p.2 + 1) else p)
  else d ++ [(k, 1)]

/-- `defaultdict(list)` append `d[k].append(v)`. -/
def dlAppend (d : List (Int × List (String × Nat × String))) (k : Int)
    (v : String × Nat × String) : List (Int × List (String × Nat × String)) :=
  if d.any (fun p => p.1 == k) then
    d.map (fun p => if p.1 == k then (p.1, p.2 ++ [v]) else p)
  else d ++ [(k, [v])]

/-- The scan accumulators of `LogScanner`. -/
structure Accumulators where
  error_counts : List (Int × Nat)
  warning_counts : List (Int × Nat)
  info_counts : List (Int × Nat)
  ips_frecuentes : List (String × Nat)
  archivos_con_muchos_eventos : List (String × Nat)
  eventos_por_codigo : List (Int × List (String × Nat × String))
  search_results : List SearchRec
deriving DecidableEq, Repr

/-- Accumulators at scan start. -/
def emptyAcc : Accumulators :=
  ⟨[], [], [], [], [], [], []⟩

/-- A console print, as an event carrying the data the source interpolates
into the printed line (colour codes and layout elided). -/
inductive OutEvent where
  | searchDisplay (path : String) (idx : Nat) (linea : String) (term : String)
      (codigo : Option Int) : OutEvent
  | classifyWarning (fecha path : String) (idx : Nat) (codigo : Int)
      (descripcion : String) : OutEvent
  | classifyError (fecha path : String) (idx : Nat) (codigo : Int)
      (descripcion : String) : OutEvent
deriving DecidableEq, Repr

/-- `LogScanner._procesar_codigo`: record the event, then classify — code
331 is a warning, every other (recognized, the caller checked) code is an
error; the verbosity setting gates only the print, never the counter. -/
def procesar_codigo (verbose : String) (codigo : Int) (full_path : String)
    (idx : Nat) (linea : String) (st : Accumulators) : Accumulators × List OutEvent :=
  let st1 := { st with eventos_por_codigo := dlAppend st.eventos_por_codigo codigo (full_path, idx, linea) }
  let descripcion := (dictGet ALL_CODES codigo).getD "Unknown code"
  let fecha := format_date linea
  if codigo = 331 then
    ({ st1 with warning_counts := cInc st1.warning_counts codigo },
     if verbose = "WARNING" ∨ verbose = "ALL" then
       [OutEvent.classifyWarning fecha full_path idx codigo descripcion]
     else [])
  else
    ({ st1 with error_counts := cInc st1.error_counts codigo },
     if verbose = "ERROR" ∨ verbose = "WARNING" ∨ verbose = "ALL" then
       [OutEvent.classifyError fecha full_path idx codigo descripcion]
     else [])

/-- The body of the per-line loop of `LogScanner.scan`: strip the line,
apply the search filter, extract the code, append the search record,
classify recognized codes, and count IP and path occurrences. -/
def processLine (sp : List String) (verbose : String) (full_path : String)
    (idx : Nat) (line : String) (st : Accumulators) : Accumulators × List OutEvent :=
  let linea := pyStrip line
  let matched := sp.find? (fun pat => search_string linea pat)
  if sp ≠ [] ∧ matched = none then (st, [])
  else
    let codigo := extract_code linea
    let st1 :=
      match matched with
      | some pat => { st with search_results := st.search_results ++ [⟨full_path, idx, linea, pat, codigo⟩] }
      | none => st
    let out1 : List OutEvent :=
      if sp ≠ [] then [OutEvent.searchDisplay full_path idx linea (matched.getD "") codigo]
      else []
    let pc :=
      match codigo with
      | some c =>
          if (dictGet ALL_CODES c).isSome then procesar_codigo verbose c full_path idx linea st1
          else (st1, [])
      | none => (st1, [])
    let st3 :=
      match extract_ip linea with
      | some ip => { pc.1 with ips_frecuentes := cInc pc.1.ips_frecuentes ip }
      | none => pc.1
    let st4 :=
      match extract_path linea with
      | some ruta => { st3 with archivos_con_muchos_eventos := cInc st3.archivos_con_muchos_eventos ruta }
      | none => st3
    (st4, out1 ++ pc.2)

/-- A whole scan pass over a stream of `(full_path, line_number, raw_line)`
triples, folding `processLine` and concatenating the console output. -/
def scanLines (sp : List String) (verbose : String) :
    List (String × Nat × String) → Accumulators → Accumulators × List OutEvent
  | [], st => (st, [])
  | l :: rest, st =>
      let step := processLine sp verbose l.1 l.2.1 l.2.2 st
      let next := scanLines sp verbose rest step.1
      (next.1, step.2 ++ next.2)

/-- The `search_string` configuration value: a plain string or a list. -/
inductive SearchCfg where
  | str (s : String) : SearchCfg
  | list (l : List String) : SearchCfg
deriving DecidableEq, Repr

/-- Normalization of the `search_string` configuration shared by
`LogScanner.__init__` and `LogReporter.__init__`: a list keeps its nonempty
entries, a nonempty string becomes a singleton, anything else is empty. -/
def normSearch : SearchCfg → List String
  | SearchCfg.list l => l.filter (fun s => !(s == ""))
  | SearchCfg.str s => if s == "" then [] else [s]

/-! ## Report renderer (`reporter.py`) -/

/-- Stable insertion of one entry into a count-descending list (ties keep
the earlier entry first), for `Counter.most_common`. -/
def insertByCount : (α × Nat) → List (α × Nat) → List (α × Nat)
  | p, [] => [p]
  | p, q :: rest => if q.2 ≤ p.2 then p :: q :: rest else q :: insertByCount p rest

/-- `Counter.most_common()`: entries sorted by count descending, stably
(equal counts keep insertion order). -/
def mostCommon : List (α × Nat) → List (α × Nat)
  | [] => []
  | p :: rest => insertByCount p (mostCommon rest)

/-- One `code - description → count occurrences` line. -/
def codeCountLine (p : Int × Nat) : String :=
  "  " ++ toString p.1 ++ " - " ++ ((dictGet ALL_CODES p.1).getD "Unknown") ++ " → " ++
    toString p.2 ++ " occurrences"

/-- `LogReporter._escribir_errores`. -/
def render_errores (error_counts : List (Int × Nat)) : List String :=
  ["[ERROR] ERRORS"] ++
    (if error_counts = [] then ["  [OK] No errors detected."]
     else (mostCommon error_counts).map codeCountLine)

/-- `LogReporter._escribir_warnings`. -/
def render_warnings (warning_counts : List (Int × Nat)) : List String :=
  ["[WARNING] WARNINGS"] ++
    (if warning_counts = [] then ["  [OK] No warnings detected."]
     else (mostCommon warning_counts).map codeCountLine)

/-- `LogReporter._escribir_info`. -/
def render_info (info_counts : List (Int × Nat)) : List String :=
  ["[INFO] INFORMATION"] ++
    (if info_counts = [] then ["  No informational events recorded."]
     else (mostCommon info_counts).map codeCountLine)

/-- `LogReporter._escribir_ips`: top 10 IPs by frequency. -/
def render_ips (ips : List (String × Nat)) : List String :=
  ["[NETWORK] IPs WITH MOST ACTIVITY (Top 10)"] ++
    ((mostCommon ips).take 10).map (fun p => "  " ++ p.1 ++ " → " ++ toString p.2 ++ " events")

/-- `LogReporter._escribir_archivos`: top 10 paths by frequency. -/
def render_archivos (archivos : List (String × Nat)) : List String :=
  ["[FILES] MOST TRANSFERRED FILES (Top 10)"] ++
    ((mostCommon archivos).take 10).map (fun p => "  " ++ p.1 ++ " → " ++ toString p.2 ++ " actions")

/-- The suspicious-IP selection of `LogReporter._escribir_patrones`
(`[ip for ip, c in ips.items() if c > self.ip_threshold]`), paired with the
count `ips[ip]` the report prints next to each listed IP. -/
def sospechosasListed (ips : List (String × Nat)) (t : Nat) : List (String × Nat) :=
  ((ips.filter (fun p => t < p.2)).map (fun p => p.1)).map (fun ip => (ip, cGet ips ip))

/-- `LogReporter._escribir_patrones`. -/
def render_patrones (ips : List (String × Nat)) (t : Nat) : List String :=
  ["[PATTERNS] DETECTED PATTERNS"] ++
    (if sospechosasListed ips t = [] then ["  [OK] No suspicious IPs detected."]
     else ("[ALERT] Suspicious IPs due to abnormal activity (>" ++ toString t ++ " events):") ::
       (sospechosasListed ips t).map (fun p => "  • " ++ p.1 ++ " (" ++ toString p.2 ++ " events)"))

/-- Python truthiness of the carried code (`if codigo:`): `None` and 0 are
falsy, every other integer is truthy. -/
def codeTruthy : Option Int → Bool
  | none => false
  | some c => !(c == 0)

/-- The bucketing of `LogReporter._escribir_busqueda`: errors (truthy code,
not 331), warnings (code 331), success (code absent or zero — the source
rebuilds success records with the code dropped to `None`). -/
def busquedaBuckets (rs : List SearchRec) :
    List SearchRec × List SearchRec × List SearchRec :=
  (rs.filter (fun r => codeTruthy r.code && !(r.code == some 331)),
   rs.filter (fun r => r.code == some 331),
   (rs.filter (fun r => !(codeTruthy r.code))).map (fun r => { r with code := none }))

/-- The success-bucket rendering of `_escribir_busqueda`: the first 20
entries, and the `... and N more` note exactly when more than 20 exist. -/
def renderedSuccess (rs : List SearchRec) : List SearchRec × Option Nat :=
  let s := (busquedaBuckets rs).2.2
  (s.take 20, if 20 < s.length then some (s.length - 20) else none)

/-- One search-result entry as printed by `_escribir_busqueda`. -/
def searchEntryLines (r : SearchRec) : List String :=
  ("  [" ++ r.term ++ "] " ++ r.path ++ ":" ++ toString r.idx) ::
    (match r.code with
     | some c => ["    CODE " ++ toString c ++ ": " ++ ((dictGet ALL_CODES c).getD "Unknown"),
                  "    → " ++ r.linea]
     | none => ["    → " ++ r.linea])

/-- `LogReporter._escribir_busqueda`. -/
def render_busqueda (sp : List String) (rs : List SearchRec) : List String :=
  ["[SEARCH] SEARCH: " ++ toString sp] ++
    (if rs = [] then ["  No matches found."]
     else
       let errs := (busquedaBuckets rs).1
       let warns := (busquedaBuckets rs).2.1
       let succ := (busquedaBuckets rs).2.2
       ["  Total matches: " ++ toString (errs.length + warns.length + succ.length),
        "    • With ERRORS: " ++ toString errs.length,
        "    • With WARNINGS: " ++ toString warns.length,
        "    • Successful: " ++ toString succ.length] ++
       (if errs = [] then [] else "  [ERROR] LINES WITH ERRORS:" :: (errs.map searchEntryLines).flatten) ++
       (if warns = [] then [] else "  [WARNING] LINES WITH WARNINGS:" :: (warns.map searchEntryLines).flatten) ++
       (if succ = [] then []
        else ("  [SUCCESS] LINES WITHOUT ERRORS (showing first 20):" ::
          ((renderedSuccess rs).1.map searchEntryLines).flatten) ++
          (match (renderedSuccess rs).2 with
           | some n => ["  ... and " ++ toString n ++ " more successful operations."]
           | none => [])))

/-- The configuration consumed by the reporter. -/
structure Config where
  base_path : String
  report_dir : String
  search_cfg : SearchCfg
  ip_suspicious_threshold : Nat
deriving DecidableEq, Repr

/-- The fields `LogReporter.__init__` stores. -/
structure ReporterState where
  reporte_path : String
  base_path : String
  search_patterns : List String
  ip_threshold : Nat
deriving DecidableEq, Repr

/-- `LogReporter.__init__`: compute the timestamped report path, normalize
the search configuration, then call `os.makedirs(report_dir, exist_ok=True)`
— which stands OUTSIDE any try/except, so a failure to create the report
directory (modelled by the injected `Except` outcome) propagates to the
caller as an exception. -/
def reporter_init (cfg : Config) (timestamp : String)
    (makedirsResult : Except String Unit) : Except String ReporterState :=
  let path := cfg.report_dir ++ "/LogHound_" ++ timestamp ++ ".txt"
  match makedirsResult with
  | Except.ok _ =>
      Except.ok ⟨path, cfg.base_path, normSearch cfg.search_cfg, cfg.ip_suspicious_threshold⟩
  | Except.error e => Except.error e

/-- The full report document (`LogReporter.generate_report`'s `with open`
body), as a list of lines. -/
def renderReport (st : ReporterState) (res : Accumulators) (now : String) : List String :=
  ["[LOGHOUND] - ANALYSIS SUMMARY",
   "Analysis date: " ++ now,
   "Scanned directory: " ++ st.base_path] ++
  (if st.search_patterns ≠ [] then ["Search patterns: " ++ toString st.search_patterns] else []) ++
  render_errores res.error_counts ++
  render_warnings res.warning_counts ++
  render_info res.info_counts ++
  render_ips res.ips_frecuentes ++
  render_archivos res.archivos_con_muchos_eventos ++
  render_patrones res.ips_frecuentes st.ip_threshold ++
  (if st.search_patterns ≠ [] then render_busqueda st.search_patterns res.search_results else []) ++
  ["=== END OF REPORT ==="]

/-- `LogReporter.generate_report`: build and write the document; the whole
body sits in a `try`, and `except Exception` turns any write failure
(injected through `writeResult`) into a console message — the function
itself never raises, so its result is always `ok` with the printed
message. -/
def generate_report (st : ReporterState) (res : Accumulators) (now : String)
    (writeResult : List String → Except String Unit) : Except String String :=
  let doc := renderReport st res now
  match writeResult doc with
  | Except.ok _ => Except.ok ("[OK] Report generated successfully: " ++ st.reporte_path)
  | Except.error e => Except.ok ("[ERROR] Error generating report: " ++ e)

/-! ## Registry lemmas -/

theorem dictGet_dictUpdate (d : List (Int × String)) (k : Int) (v : String) (q : Int) :
    dictGet (dictUpdate d k v) q = if q = k then some v else dictGet d q := by
  induction d with
  | nil =>
      simp only [dictUpdate, dictGet]
      by_cases h : q = k
      · subst h; simp
      · have hk : ¬(k = q) := fun hh => h hh.symm
        simp [hk, h]
  | cons p rest ih =>
      obtain ⟨k0, v0⟩ := p
      simp only [dictUpdate]
      by_cases h0 : k0 = k
      · subst h0
        simp only [if_pos rfl]
        by_cases h : q = k0
        · subst h; simp [dictGet]
        · have hk : ¬(k0 = q) := fun hh => h hh.symm
          simp [dictGet, hk, h]
      · simp only [if_neg h0]
        by_cases h2 : k0 = q
        · subst h2
          have hqk : ¬(k0 = k) := h0
          simp [dictGet, hqk]
        · simp [dictGet, h2, ih]

theorem dictGet_eq_none_of_not_mem (e : List (Int × String)) (k : Int)
    (h : k ∉ e.map Prod.fst) : dictGet e k = none := by
  induction e with
  | nil => rfl
  | cons p rest ih =>
      obtain ⟨k0, v0⟩ := p
      simp only [List.map_cons, List.mem_cons] at h
      push_neg at h
      simp only [dictGet]
      rw [if_neg (fun hh => h.1 hh.symm)]
      exact ih h.2

theorem dictGet_dictMerge (e d : List (Int × String)) (k : Int)
    (he : (e.map Prod.fst).Nodup) :
    dictGet (dictMerge d e) k = (dictGet e k).or (dictGet d k) := by
  induction e generalizing d with
  | nil => simp [dictMerge, dictGet, Option.or]
  | cons p rest ih =>
      obtain ⟨k0, v0⟩ := p
      simp only [List.map_cons, List.nodup_cons] at he
      have step : dictMerge d ((k0, v0) :: rest) = dictMerge (dictUpdate d k0 v0) rest := rfl
      rw [step, ih _ he.2]
      by_cases h : k0 = k
      · subst h
        have hnone : dictGet rest k0 = none := dictGet_eq_none_of_not_mem rest k0 he.1
        simp [dictGet, hnone, dictGet_dictUpdate, Option.or]
      · have hk : ¬(k = k0) := fun hh => h hh.symm
        simp [dictGet, h, dictGet_dictUpdate, hk]

theorem optOr_isSome (a b : Option String) :
    (a.or b).isSome = (a.isSome || b.isSome) := by
  cases a <;> simp [Option.or]

/-- C1 (counterexample). The claim says the file-transfer-protocol
description wins for codes defined by two vocabularies, e.g. code 500; but
`ALL_CODES = {**EFT_CODES, **HTTP_CODES, ...}` lets LATER dictionaries
override earlier ones, so at 500 the merged registry answers with the HTTP
description, not the file-transfer one. -/
theorem eft_C1_counterexample :
    dictGet EFT_CODES 500 = some "Syntax error, command unrecognized"
    ∧ dictGet HTTP_CODES 500 = some "Internal Server Error (disk full or abort)"
    ∧ describe 500 = "Internal Server Error (disk full or abort)"
    ∧ ¬ describe 500 = "Syntax error, command unrecognized" := by
  refine ⟨by decide, by decide, by decide, by decide⟩

/-- C1 (amended): looking up c in the merged registry returns the
description of the highest-priority vocabulary containing c — priority
being the MERGE ORDER, Winsock over SFTP over HTTP over file-transfer, so
on the shared codes (500, 501) the HTTP description is returned — it is
`some` exactly when c is a key of any of the four vocabularies, and the
`describe` default is "Unknown" otherwise. -/
theorem eft_C1_amended (c : Int) :
    describe c =
      ((dictGet WINSOCK_CODES c).or ((dictGet SFTP_CODES c).or
        ((dictGet HTTP_CODES c).or (dictGet EFT_CODES c)))).getD "Unknown"
    ∧ ((dictGet ALL_CODES c).isSome ↔
        ((dictGet EFT_CODES c).isSome ∨ (dictGet HTTP_CODES c).isSome ∨
         (dictGet SFTP_CODES c).isSome ∨ (dictGet WINSOCK_CODES c).isSome))
    ∧ (dictGet ALL_CODES c = none → describe c = "Unknown") := by
  have h3 : dictGet (dictMerge EFT_CODES HTTP_CODES) c =
      (dictGet HTTP_CODES c).or (dictGet EFT_CODES c) :=
    dictGet_dictMerge HTTP_CODES EFT_CODES c (by decide)
  have h2 : dictGet (dictMerge (dictMerge EFT_CODES HTTP_CODES) SFTP_CODES) c =
      (dictGet SFTP_CODES c).or (dictGet (dictMerge EFT_CODES HTTP_CODES) c) :=
    dictGet_dictMerge SFTP_CODES (dictMerge EFT_CODES HTTP_CODES) c (by decide)
  have h1 : dictGet ALL_CODES c =
      (dictGet WINSOCK_CODES c).or
        (dictGet (dictMerge (dictMerge EFT_CODES HTTP_CODES) SFTP_CODES) c) :=
    dictGet_dictMerge WINSOCK_CODES (dictMerge (dictMerge EFT_CODES HTTP_CODES) SFTP_CODES) c
      (by decide)
  have hchain : dictGet ALL_CODES c =
      (dictGet WINSOCK_CODES c).or ((dictGet SFTP_CODES c).or
        ((dictGet HTTP_CODES c).or (dictGet EFT_CODES c))) := by
    rw [h1, h2, h3]
  refine ⟨?_, ?_, ?_⟩
  · unfold describe
    rw [hchain]
  · rw [hchain]
    simp only [optOr_isSome, Bool.or_eq_true]
    tauto
  · intro h
    unfold describe
    rw [h]
    rfl

/-! ## Claim theorems: classification and code extraction -/

/-- C5: for every recognized code handed to the classification step, code
331 increments `warning_counts[331]` and leaves `error_counts` untouched,
and every other recognized code increments `error_counts` for that code and
leaves `warning_counts` untouched. -/
theorem eft_C5 (verbose full_path linea : String) (idx : Nat) (st : Accumulators) (c : Int)
    (hrec : (dictGet ALL_CODES c).isSome = true) :
    ((procesar_codigo verbose c full_path idx linea st).1.warning_counts,
     (procesar_codigo verbose c full_path idx linea st).1.error_counts) =
      if c = 331 then (cInc st.warning_counts 331, st.error_counts)
      else (st.warning_counts, cInc st.error_counts c) := by
  unfold procesar_codigo
  by_cases h : c = 331
  · subst h
    simp
  · simp [h]

/-- Witness for C5 at code 331 on empty accumulators. -/
theorem eft_C5_witness :
    ((procesar_codigo "ALL" 331 "srv.log" 1 "user login" emptyAcc).1.warning_counts,
     (procesar_codigo "ALL" 331 "srv.log" 1 "user login" emptyAcc).1.error_counts) =
      (cInc emptyAcc.warning_counts 331, emptyAcc.error_counts) := by
  have h := eft_C5 "ALL" "srv.log" "user login" 1 emptyAcc 331 (by decide)
  simpa using h

/-- C2 (code bug): the spec's invariant says a code of exactly 0 is never
stored as an error or warning, and the source's own comments agree
("0 = success, no error to report", "Any non-zero code is an ERROR"); but
the token-scan strategy turns the free-form token `000` into code 0, code 0
is a key of the merged registry (SFTP "Operation completed successfully"),
and the classifier then increments `error_counts[0]`. -/
theorem eft_C2_bug :
    extract_code "Session 000 closed" = some 0
    ∧ (dictGet ALL_CODES 0).isSome = true
    ∧ cGet ((processLine [] "NONE" "srv.log" 1 "Session 000 closed" emptyAcc).1.error_counts) 0 = 1 := by
  exact ⟨by decide, by decide, by decide⟩

/-- C3 (counterexample): on the scenario line the extractor does NOT return
226 — the bracketed session id 12345 is returned instead, because `[` and
`]` are neither word characters nor in the lookaround exclusion set, and
12345 < 100000 passes the session-id guard. -/
theorem eft_C3_counterexample :
    extract_code "10.0.0.5 user [12345]GET 226 transfer complete" = some 12345
    ∧ ¬ extract_code "10.0.0.5 user [12345]GET 226 transfer complete" = some 226 := by
  exact ⟨by decide, by decide⟩

/-- C3 (amended): on the scenario line the token scan matches the bracketed
session id 12345 first and 226 second (the IP octets are excluded by the
adjacency rule, the brackets exclude nothing), and since 12345 < 100000 the
extraction returns 12345, not 226. -/
theorem eft_C3_amended :
    reMatches none "10.0.0.5 user [12345]GET 226 transfer complete".data = ["12345", "226"]
    ∧ extract_code "10.0.0.5 user [12345]GET 226 transfer complete" = some 12345 := by
  exact ⟨by decide, by decide⟩

/-- C4: a semicolon-delimited line with at least nine fields whose field
index 8 strips and parses to an integer in [200,599] or at least 10000 is
assigned exactly that integer by `extract_code`; in particular the scenario
line yields 550, whose description is the file-unavailable text, and the
classification step counts it as an error (and no warning). -/
theorem eft_C4 :
    (∀ (linea : String) (c : Int),
      pyContainsChar linea.data ';' = true →
      9 ≤ (pySplit ';' linea.data).length →
      pyIntOfChars (pyStripL ((pySplit ';' linea.data).getD 8 [])) = some c →
      ((200 : Int) ≤ c ∧ c ≤ 599) ∨ 10000 ≤ c →
      extract_code linea = some c)
    ∧ extract_code "2024-05-01 10:00:00;FTP;host;21;bob;/local;/remote;GET;550;" = some 550
    ∧ describe 550 = "Requested action not taken (file unavailable/not found/no access)"
    ∧ cGet ((procesar_codigo "NONE" 550 "srv.log" 7
        "2024-05-01 10:00:00;FTP;host;21;bob;/local;/remote;GET;550;" emptyAcc).1.error_counts) 550 = 1
    ∧ (procesar_codigo "NONE" 550 "srv.log" 7
        "2024-05-01 10:00:00;FTP;host;21;bob;/local;/remote;GET;550;" emptyAcc).1.warning_counts =
        emptyAcc.warning_counts := by
  refine ⟨?_, by decide, by decide, by decide, by decide⟩
  intro linea c h1 h2 h3 h4
  have hc0 : ¬(c = 0) := by
    rcases h4 with ⟨h5, h6⟩ | h5 <;> omega
  simp only [extract_code, h1, if_true, h3]
  rw [if_pos h2, if_neg hc0, if_pos h4]

/-- Witness for C4's universally quantified part at a concrete delimited
line carrying the Winsock code 10054 in field 8. -/
theorem eft_C4_witness :
    extract_code "t;FTP;h;21;u;/a;/b;GET;10054;" = some 10054 := by
  exact eft_C4.1 "t;FTP;h;21;u;/a;/b;GET;10054;" 10054 (by decide) (by decide) (by decide)
    (Or.inr (by decide))

/-- C10: a semicolon-delimited line with at least nine fields whose field 8
parses to an integer that is neither 0 nor in [200,599] nor at least 10000
yields no decision from the delimited strategy, and the token scan runs on
the full line in the same call. -/
theorem eft_C10 (linea : String) (c : Int)
    (h1 : pyContainsChar linea.data ';' = true)
    (h2 : 9 ≤ (pySplit ';' linea.data).length)
    (h3 : pyIntOfChars (pyStripL ((pySplit ';' linea.data).getD 8 [])) = some c)
    (h4 : ¬(c = 0))
    (h5 : ¬(((200 : Int) ≤ c ∧ c ≤ 599) ∨ 10000 ≤ c)) :
    extract_code linea = tokenScanCode linea.data := by
  simp only [extract_code, h1, if_true, h3]
  rw [if_pos h2, if_neg h4, if_neg h5]

/-- Witness for C10: field 8 holds 150 (outside the accepted bands), the
delimited strategy abstains, and the token scan then extracts that very 150
from the full line. -/
theorem eft_C10_witness :
    extract_code "t;FTP;h;21;u;/a;/b;GET;150;" = tokenScanCode "t;FTP;h;21;u;/a;/b;GET;150;".data
    ∧ tokenScanCode "t;FTP;h;21;u;/a;/b;GET;150;".data = some 150 := by
  constructor
  · exact eft_C10 "t;FTP;h;21;u;/a;/b;GET;150;" 150 (by decide) (by decide) (by decide)
      (by decide) (by decide)
  · decide

/-! ## Claim theorems: verbosity noninterference -/

theorem procesar_fst_indep (v1 v2 c p i l st) :
    (procesar_codigo v1 c p i l st).1 = (procesar_codigo v2 c p i l st).1 := by
  unfold procesar_codigo
  by_cases h : c = 331 <;> simp [h]

theorem processLine_fst_indep (sp : List String) (v1 v2 p : String) (i : Nat) (l : String)
    (st : Accumulators) :
    (processLine sp v1 p i l st).1 = (processLine sp v2 p i l st).1 := by
  unfold processLine
  by_cases hskip : sp ≠ [] ∧ (sp.find? fun pat => search_string (pyStrip l) pat) = none
  · simp [hskip]
  · simp only [if_neg hskip]
    cases hc : extract_code (pyStrip l) with
    | none => simp [hc]
    | some c =>
        by_cases hs : (dictGet ALL_CODES c).isSome
        · simp [hc, hs, procesar_fst_indep v1 v2]
        · simp [hc, hs]

/-- C6: noninterference of the verbosity setting — two scans of the same
line stream with the same search patterns and different `verbose` values
produce identical accumulators (all counters, frequencies and search
results); verbosity gates only the emitted console events. -/
theorem eft_C6 (sp : List String) (v1 v2 : String)
    (lines : List (String × Nat × String)) (st : Accumulators) :
    (scanLines sp v1 lines st).1 = (scanLines sp v2 lines st).1 := by
  induction lines generalizing st with
  | nil => rfl
  | cons l rest ih =>
      simp only [scanLines]
      rw [processLine_fst_indep sp v1 v2 l.1 l.2.1 l.2.2 st]
      exact ih _

/-! ## Claim theorems: report rendering -/

theorem cGet_eq_of_mem (d : List (String × Nat)) (hd : (d.map Prod.fst).Nodup)
    (ip : String) (n : Nat) (h : (ip, n) ∈ d) : cGet d ip = n := by
  induction d with
  | nil => cases h
  | cons q rest ih =>
      simp only [List.map_cons, List.nodup_cons] at hd
      rcases List.mem_cons.mp h with h1 | h2
      · subst h1
        simp [cGet]
      · have hfst : ip ∈ rest.map Prod.fst := List.mem_map.mpr ⟨(ip, n), h2, rfl⟩
        have hne : ¬(q.1 = ip) := fun hh => hd.1 (hh ▸ hfst)
        have hb : (q.1 == ip) = false := by simp [hne]
        simp [cGet, hb]
        exact ih hd.2 h2

/-- C7: with unique IP keys (an invariant of `Counter`) and any positive
threshold, an IP appears in the anomaly-patterns listing, paired with its
reported count, exactly when its frequency strictly exceeds the threshold:
frequency equal to the threshold is not listed, one above is. -/
theorem eft_C7 (ips : List (String × Nat)) (t : Nat) (ht : 0 < t) (ip : String) (n : Nat)
    (hnd : (ips.map Prod.fst).Nodup) (hmem : (ip, n) ∈ ips) :
    ((ip, n) ∈ sospechosasListed ips t ↔ t < n) := by
  have hget : cGet ips ip = n := cGet_eq_of_mem ips hnd ip n hmem
  constructor
  · intro h
    simp only [sospechosasListed, List.map_map, List.mem_map, List.mem_filter,
      Function.comp] at h
    obtain ⟨p, ⟨hpmem, hpt⟩, hpair⟩ := h
    have hp1 : p.1 = ip := congrArg Prod.fst hpair
    have hpget : cGet ips p.1 = p.2 := cGet_eq_of_mem ips hnd p.1 p.2 hpmem
    rw [hp1, hget] at hpget
    simp only [decide_eq_true_eq] at hpt
    omega
  · intro h
    simp only [sospechosasListed, List.map_map, List.mem_map, List.mem_filter,
      Function.comp]
    exact ⟨(ip, n), ⟨hmem, by simpa using h⟩, by simp [hget]⟩

/-- Witness for C7: the spec scenario — IP 203.0.113.9 with 51 events and
threshold 50 is listed with count 51 (51 > 50). -/
theorem eft_C7_witness :
    ("203.0.113.9", 51) ∈ sospechosasListed [("203.0.113.9", 51)] 50 := by
  exact (eft_C7 [("203.0.113.9", 51)] 50 (by decide) "203.0.113.9" 51
    (by decide) (by simp)).mpr (by decide)

/-- C8: the rendered success bucket of the search section lists the first
20 entries and notes how many more exist exactly when the bucket has more
than 20 entries; with at most 20 entries all of them are listed and no note
is emitted. -/
theorem eft_C8 (rs : List SearchRec) (N : Nat)
    (hN : ((busquedaBuckets rs).2.2).length = N) :
    (20 < N →
      (renderedSuccess rs).1 = ((busquedaBuckets rs).2.2).take 20
      ∧ ((renderedSuccess rs).1).length = 20
      ∧ (renderedSuccess rs).2 = some (N - 20))
    ∧ (N ≤ 20 →
      (renderedSuccess rs).1 = (busquedaBuckets rs).2.2
      ∧ (renderedSuccess rs).2 = none) := by
  subst hN
  constructor
  · intro h
    refine ⟨rfl, ?_, ?_⟩
    · simp only [renderedSuccess, List.length_take]
      omega
    · simp only [renderedSuccess]
      rw [if_pos h]
  · intro h
    refine ⟨?_, ?_⟩
    · simp only [renderedSuccess]
      exact List.take_of_length_le h
    · simp only [renderedSuccess]
      rw [if_neg (by omega)]

/-- Witness for C8 on a concrete 21-record success bucket: 20 entries are
listed and the note reports 1 more. -/
theorem eft_C8_witness :
    ((renderedSuccess (List.replicate 21 ⟨"f.log", 1, "raw line", "term", (none : Option Int)⟩)).1).length = 20
    ∧ (renderedSuccess (List.replicate 21 ⟨"f.log", 1, "raw line", "term", (none : Option Int)⟩)).2 = some 1 := by
  have h := eft_C8 (List.replicate 21 ⟨"f.log", 1, "raw line", "term", (none : Option Int)⟩) 21
    (by decide)
  exact ⟨(h.1 (by decide)).2.1, (h.1 (by decide)).2.2⟩

/-- C9 (counterexample): the failure mode "report directory uncreatable" is
NOT caught inside the renderer — `os.makedirs` in `LogReporter.__init__`
stands outside every try/except, so the modelled constructor propagates the
exception to its caller. -/
theorem eft_C9_counterexample :
    reporter_init ⟨"C:/logs", "C:/reports", SearchCfg.str "", 50⟩ "20240101_000000"
      (Except.error "Permission denied: cannot create report directory") =
    Except.error "Permission denied: cannot create report directory" := by
  rfl

/-- C9 (amended): `generate_report` itself never raises — whatever outcome
the injected write produces, the whole body sits inside `try/except` and the
result is a console message, never a propagated exception; the directory
creation in the constructor, by contrast, is outside the try and does
propagate (see the counterexample). -/
theorem eft_C9_amended (st : ReporterState) (res : Accumulators) (now : String)
    (writeResult : List String → Except String Unit) :
    ∃ msg, generate_report st res now writeResult = Except.ok msg := by
  simp only [generate_report]
  cases h : writeResult (renderReport st res now) with
  | ok u => exact ⟨_, rfl⟩
  | error e => exact ⟨_, rfl⟩
